import Mathlib

/-!
Shallow embedding of the session-orchestration core of the
genesys-cloud-webrtc-sdk excerpt: `src/sessions/session-manager.ts`,
`src/sessions/softphone-session-handler.ts` and `src/types/enums.ts`.
Pure functions model the manager operations; externally observable
collaborator calls are recorded as explicit `SdkAction` values; thrown
SDK errors become `Except`/`Option SdkError` results.
-/

namespace GcSdk

/-- Error taxonomy, from `src/types/enums.ts` (`SdkErrorTypes`). -/
inductive SdkErrorTypes where
  | generic
  | initialization
  | http
  | invalid_options
  | not_supported
  | session
  deriving DecidableEq, Repr

/-- Session kinds, from `src/types/enums.ts` (`SessionTypes`). -/
inductive SessionTypes where
  | softphone
  | collaborateVideo
  | acdScreenShare
  deriving DecidableEq, Repr

/-- A raised SDK error: its taxonomy kind, message, and the identifying
values attached as structured context (`throwSdkError(..., details)`). -/
structure SdkError where
  errType : SdkErrorTypes
  message : String
  details : List String
  deriving DecidableEq, Repr

/-- Truthiness of an optional JS string: `undefined` and the empty string
are falsy. -/
def jsTruthy : Option String → Bool
  | none => false
  | some s => !(s == "")

/-- Incoming proposal payload (`ISessionInfo`), as consumed by
`SessionManager.onPropose`. -/
structure ISessionInfo where
  sessionId : String
  autoAnswer : Bool
  fromJid : String
  conversationId : String
  originalRoomJid : Option String
  fromUserId : Option String
  deriving DecidableEq, Repr

/-- A registered pending session (`IPendingSession`), as constructed in
`SessionManager.onPropose`. -/
structure IPendingSession where
  id : String
  autoAnswer : Bool
  address : String
  conversationId : String
  sessionType : SessionTypes
  originalRoomJid : Option String
  fromUserId : Option String
  deriving DecidableEq, Repr

/-- An outgoing media track (a `MediaStreamTrack`): id, kind
(`"audio"` or `"video"`) and the human-readable device label. -/
structure MediaTrack where
  id : String
  kind : String
  label : String
  deriving DecidableEq, Repr

/-- A sender on the peer connection (`RTCRtpSender`); its track may be null. -/
structure RTCRtpSender where
  track : Option MediaTrack
  deriving DecidableEq, Repr

/-- An enumerated media device (`MediaDeviceInfo`): id, label and kind
(`"audioinput"`, `"videoinput"` or `"audiooutput"`). -/
structure MediaDeviceInfo where
  deviceId : String
  label : String
  kind : String
  deriving DecidableEq, Repr

/-- The device inventory returned by `getEnumeratedDevices`. -/
structure EnumeratedDevices where
  videoDevices : List MediaDeviceInfo
  audioDevices : List MediaDeviceInfo
  outputDevices : List MediaDeviceInfo
  deriving DecidableEq, Repr

/-- The transport-owned live session (`IJingleSession`), restricted to the
fields the manager reads: `_screenShareStream` is its track list when
present, `outputAudioElement` is the sink id of `_outputAudioElement`
when an element is attached. -/
structure IJingleSession where
  id : String
  sid : String
  peerID : String
  conversationId : String
  sessionType : SessionTypes
  active : Bool
  screenShareStream : Option (List MediaTrack)
  senders : List RTCRtpSender
  outputAudioElement : Option String
  deriving DecidableEq, Repr

/-- A session handler as the manager sees it: its type, disabled flag and
address predicate (`shouldHandleSessionByJid`). -/
structure SessionHandler where
  sessionType : SessionTypes
  disabled : Bool
  shouldHandleSessionByJid : String → Bool

/-- Externally observable calls made by the manager into handlers, the
media engine or the SDK facade. -/
inductive SdkAction where
  | handlePropose (sessionType : SessionTypes) (pendingId : String)
  | acceptSessionHook (sessionId : String)
  | endSessionHook (sessionId : String)
  | setVideoMute (sessionId : String) (mute : Bool)
  | setAudioMute (sessionId : String) (mute : Bool)
  | stopTrack (trackId : String)
  | removeMediaFromSession (sessionId : String) (trackId : String)
  | removeTrackFromOutboundStream (sessionId : String) (trackId : String)
  | updateOutgoingMedia (sessionId : String) (videoDeviceId : Bool) (audioDeviceId : Bool)
  | updateOutputDevice (sessionId : String) (deviceId : String)
  deriving DecidableEq, Repr

/-- Handler resolution by peer address, the `else` branch of
`SessionManager.getSessionHandler`: derive a jid, raise `generic` when it
is falsy, otherwise take the first handler whose address predicate
matches, raising `session` when none does. -/
def getSessionHandlerByJid (handlers : List SessionHandler) (fromJid : String) :
    Except SdkError SessionHandler :=
  if fromJid == "" then
    .error { errType := .generic,
             message := "getSessionHandler was called without any identifying information",
             details := [] }
  else
    match handlers.find? (fun h => h.shouldHandleSessionByJid fromJid) with
    | some h => .ok h
    | none => .error { errType := .session,
                       message := "Failed to find session handler for session",
                       details := [fromJid] }

/-- The pending registry (`SessionManager.pendingSessions`): a JS object
keyed by session id, modelled as an association list in insertion order. -/
abbrev PendingRegistry : Type := List (String × IPendingSession)

/-- Lookup in the pending registry (`getPendingSession`). -/
def getPendingSession (registry : PendingRegistry) (sessionId : String) :
    Option IPendingSession :=
  (registry.find? (fun p => p.1 == sessionId)).map Prod.snd

/-- Result of one `onPropose` call: the registry afterwards, the handler
hooks invoked, and the error thrown, when any. -/
structure OnProposeResult where
  pendingSessions : PendingRegistry
  actions : List SdkAction
  thrown : Option SdkError
  deriving Repr

/-- `SessionManager.onPropose`: resolve the handler by address; ignore when
disabled; ignore a duplicate proposal for an already-pending id; else
register a new pending session and invoke the handler propose hook. -/
def onPropose (handlers : List SessionHandler) (registry : PendingRegistry)
    (info : ISessionInfo) : OnProposeResult :=
  match getSessionHandlerByJid handlers info.fromJid with
  | .error e => { pendingSessions := registry, actions := [], thrown := some e }
  | .ok handler =>
    if handler.disabled then
      { pendingSessions := registry, actions := [], thrown := none }
    else
      match getPendingSession registry info.sessionId with
      | some _ => { pendingSessions := registry, actions := [], thrown := none }
      | none =>
        let pendingSession : IPendingSession :=
          { id := info.sessionId
            autoAnswer := info.autoAnswer
            address := info.fromJid
            conversationId := info.conversationId
            sessionType := handler.sessionType
            originalRoomJid := info.originalRoomJid
            fromUserId := info.fromUserId }
        { pendingSessions := registry ++ [(info.sessionId, pendingSession)]
          actions := [SdkAction.handlePropose handler.sessionType info.sessionId]
          thrown := none }

/-- The registry reached after a sequence of `onPropose` calls. -/
def onProposeSeq (handlers : List SessionHandler) (registry : PendingRegistry)
    (infos : List ISessionInfo) : PendingRegistry :=
  infos.foldl (fun reg info => (onPropose handlers reg info).pendingSessions) registry

/-- The ids registered in a pending registry. -/
def pendingKeys (registry : PendingRegistry) : List String :=
  registry.map Prod.fst

/-- Query for `SessionManager.getSession`: an optional session id and an
optional conversation id. -/
structure SessionQuery where
  id : Option String
  conversationId : Option String
  deriving DecidableEq, Repr

/-- `SessionManager.getSession`: lookup by id when the id is truthy, else
first session with the given conversation id; raise a `session`-kind
error carrying the query values when nothing is found. -/
def getSession (sessions : List IJingleSession) (params : SessionQuery) :
    Except SdkError IJingleSession :=
  let sessionFound : Option IJingleSession :=
    if jsTruthy params.id then
      sessions.find? (fun s => s.id == params.id.getD "")
    else
      sessions.find? (fun s => some s.conversationId == params.conversationId)
  match sessionFound with
  | some s => .ok s
  | none => .error { errType := .session
                     message := "Unable to find session"
                     details := params.id.toList ++ params.conversationId.toList }

/-- `SessionManager.acceptSession`: require a truthy id
(`invalid_options` otherwise), resolve the live session, resolve its
handler, then delegate to the handler accept hook. -/
def acceptSession (sessions : List IJingleSession) (handlers : List SessionHandler)
    (paramsId : Option String) : Except SdkError (List SdkAction) :=
  if !(jsTruthy paramsId) then
    .error { errType := .invalid_options
             message := "An id representing the sessionId is required for acceptSession"
             details := [] }
  else do
    let s ← getSession sessions { id := paramsId, conversationId := none }
    let _ ← getSessionHandlerByJid handlers s.peerID
    pure [SdkAction.acceptSessionHook s.id]

/-- `SessionManager.endSession`: require a truthy id or conversation id
(raising a `session`-kind error otherwise), resolve the live session,
resolve its handler, then delegate to the handler end hook. -/
def endSession (sessions : List IJingleSession) (handlers : List SessionHandler)
    (params : SessionQuery) : Except SdkError (List SdkAction) :=
  if !(jsTruthy params.id) && !(jsTruthy params.conversationId) then
    .error { errType := .session
             message := "Unable to end session: must provide session id or conversationId."
             details := [] }
  else do
    let s ← getSession sessions params
    let _ ← getSessionHandlerByJid handlers s.peerID
    pure [SdkAction.endSessionHook s.id]

/-- Modelled from the spec: `getValidDeviceId` lives in `media-utils`,
outside the excerpted core. Per the spec, a `true` sentinel for a device
id means "pick any available device of that kind", and a literal id is
honored only when a device with that id exists in the enumerated
inventory; when no valid device of the kind can be resolved, no id is
produced. -/
def getValidDeviceId (devices : List MediaDeviceInfo) :
    Option String ⊕ Bool → Option String
  | .inl (some s) => if devices.any (fun d => d.deviceId == s) then some s else none
  | _ => devices.head?.map (fun d => d.deviceId)

/-- The requested output device id of `updateOutputDeviceForAllSessions`:
a literal string id, the boolean sentinel, or `null`, written as
`Option String ⊕ Bool` with `.inl none` standing for `null`. -/
abbrev OutputDeviceIdArg : Type := Option String ⊕ Bool

/-- `getAllActiveSessions`: the transport sessions whose `active` flag is set. -/
def getAllActiveSessions (allSessions : List IJingleSession) : List IJingleSession :=
  allSessions.filter (fun s => s.active)

/-- The per-session fan-out of `updateOutputDeviceForAllSessions`: resolve
each session handler (raising when none matches) and call its
`updateOutputDevice` with the resolved device id. -/
def fanOutOutputDevice (handlers : List SessionHandler) (resolvedId : String) :
    List IJingleSession → Except SdkError (List SdkAction)
  | [] => .ok []
  | s :: rest => do
    let _ ← getSessionHandlerByJid handlers s.peerID
    let restActs ← fanOutOutputDevice handlers resolvedId rest
    pure (SdkAction.updateOutputDevice s.id resolvedId :: restActs)

/-- `SessionManager.updateOutputDeviceForAllSessions`: resolve the device
id (falling back to the empty string), return early when a literal string
id did not resolve to itself, else fan out to every active
non-screen-share session. -/
def updateOutputDeviceForAllSessions (handlers : List SessionHandler)
    (outputDevices : List MediaDeviceInfo) (allSessions : List IJingleSession)
    (outputDeviceId : OutputDeviceIdArg) : Except SdkError (List SdkAction) :=
  let resolvedId := (getValidDeviceId outputDevices outputDeviceId).getD ""
  let isLiteralMismatch :=
    match outputDeviceId with
    | .inl (some s) => !(resolvedId == s)
    | _ => false
  if isLiteralMismatch then .ok []
  else
    fanOutOutputDevice handlers resolvedId
      ((getAllActiveSessions allSessions).filter
        (fun s => !(s.sessionType == SessionTypes.acdScreenShare)))

/-- The track ids of a session screen-share capture stream, ignored by
device reconciliation. -/
def screenShareTrackIds (session : IJingleSession) : List String :=
  (session.screenShareStream.getD []).map (fun t => t.id)

/-- The outgoing tracks reconciliation inspects for a session: tracks of
senders on the peer connection, excluding screen-share capture tracks. -/
def outgoingTracksToCheck (session : IJingleSession) : List MediaTrack :=
  (session.senders.filterMap (fun s => s.track)).filter
    (fun t => !((screenShareTrackIds session).contains t.id))

/-- Whether a device matching a track still exists: same human-readable
label and device kind beginning with the track kind. -/
def deviceExistsForTrack (devices : List MediaDeviceInfo) (track : MediaTrack) : Bool :=
  devices.any (fun d => d.label == track.label && d.kind.take 5 == track.kind)

/-- The device list a track is checked against: video tracks against the
video inventory, everything else against the audio inventory. -/
def deviceListForTrack (devices : EnumeratedDevices) (track : MediaTrack) :
    List MediaDeviceInfo :=
  if track.kind == "video" then devices.videoDevices else devices.audioDevices

/-- The outgoing tracks of a session whose device is gone from the inventory. -/
def missingTracks (devices : EnumeratedDevices) (session : IJingleSession) :
    List MediaTrack :=
  (outgoingTracksToCheck session).filter
    (fun t => !(deviceExistsForTrack (deviceListForTrack devices t) t))

/-- The per-session entry of the device-update plan: which media kinds
must be switched. -/
structure MediaUpdateFlags where
  video : Bool
  audio : Bool
  deriving DecidableEq, Repr

/-- The device-update flags reconciliation computes for one session. -/
def sessionUpdateFlags (devices : EnumeratedDevices) (session : IJingleSession) :
    MediaUpdateFlags :=
  { video := (missingTracks devices session).any (fun t => t.kind == "video")
    audio := (missingTracks devices session).any (fun t => t.kind == "audio") }

/-- The device-update plan (`updates` map) built by the first phase of
`validateOutgoingMediaTracks`: one entry per active session with at least
one missing-device track, in session order. -/
def buildUpdates (devices : EnumeratedDevices) (sessions : List IJingleSession) :
    List (String × MediaUpdateFlags) :=
  sessions.filterMap (fun s =>
    if (missingTracks devices s).isEmpty then none
    else some (s.id, sessionUpdateFlags devices s))

/-- The global output flag of the first phase: set when output-device
selection is supported and some session with an attached output element
has a sink id absent from the output inventory. -/
def outputDeviceFlag (hasOutputSupport : Bool) (devices : EnumeratedDevices)
    (sessions : List IJingleSession) : Bool :=
  hasOutputSupport && sessions.any (fun s =>
    match s.outputAudioElement with
    | some sinkId => !(devices.outputDevices.any (fun d => d.deviceId == sinkId))
    | none => false)

/-- Modelled from the spec: `getSendersByTrackType` lives in the base
session handler, outside the excerpted core. The spec requires the
no-device audio path to stop and remove every currently attached
audio-sending track, so this returns the peer-connection senders whose
track has the given kind. -/
def getSendersByTrackType (session : IJingleSession) (kind : String) :
    List RTCRtpSender :=
  session.senders.filter (fun sn =>
    match sn.track with
    | some t => t.kind == kind
    | none => false)

/-- The second-phase calls issued for one flagged session: a video mute or
a video sentinel switch, an audio mute plus stop-and-removal of every
audio-sending track or an audio sentinel switch, and the combined
outgoing-media update when a sentinel was chosen. -/
def flagActions (devices : EnumeratedDevices) (sessionId : String)
    (s : IJingleSession) (fl : MediaUpdateFlags) : List SdkAction :=
  let videoMuteActs :=
    if fl.video && devices.videoDevices.isEmpty then
      [SdkAction.setVideoMute s.id true]
    else []
  let audioActs :=
    if fl.audio && devices.audioDevices.isEmpty then
      SdkAction.setAudioMute s.id true ::
        ((getSendersByTrackType s "audio").filter (fun sn => sn.track.isSome)).flatMap
          (fun sn =>
            match sn.track with
            | some t => [SdkAction.stopTrack t.id,
                         SdkAction.removeMediaFromSession s.id t.id,
                         SdkAction.removeTrackFromOutboundStream s.id t.id]
            | none => [])
    else []
  let videoOpt := fl.video && !devices.videoDevices.isEmpty
  let audioOpt := fl.audio && !devices.audioDevices.isEmpty
  let updateActs :=
    if videoOpt || audioOpt then
      [SdkAction.updateOutgoingMedia sessionId videoOpt audioOpt]
    else []
  videoMuteActs ++ audioActs ++ updateActs

/-- The second-phase handling of one update-plan entry: re-resolve the
session by id and its handler (either may raise), then issue the calls. -/
def sessionUpdateActions (handlers : List SessionHandler) (devices : EnumeratedDevices)
    (allSessions : List IJingleSession) (entry : String × MediaUpdateFlags) :
    Except SdkError (List SdkAction) := do
  let jingleSession ← getSession allSessions { id := some entry.1, conversationId := none }
  let _ ← getSessionHandlerByJid handlers jingleSession.peerID
  pure (flagActions devices entry.1 jingleSession entry.2)

/-- The second phase over the whole update plan, in plan order. -/
def processUpdates (handlers : List SessionHandler) (devices : EnumeratedDevices)
    (allSessions : List IJingleSession) :
    List (String × MediaUpdateFlags) → Except SdkError (List SdkAction)
  | [] => .ok []
  | entry :: rest => do
    let acts ← sessionUpdateActions handlers devices allSessions entry
    let restActs ← processUpdates handlers devices allSessions rest
    pure (acts ++ restActs)

/-- `SessionManager.validateOutgoingMediaTracks`: build the update plan
and the output flag over the active sessions; when both are empty the
pass is a no-op; otherwise process the plan and, when the output flag is
set, update the output device for all sessions with the `true` sentinel. -/
def validateOutgoingMediaTracks (handlers : List SessionHandler)
    (hasOutputSupport : Bool) (devices : EnumeratedDevices)
    (allSessions : List IJingleSession) : Except SdkError (List SdkAction) :=
  let sessions := getAllActiveSessions allSessions
  let updates := buildUpdates devices sessions
  let outputFlag := outputDeviceFlag hasOutputSupport devices sessions
  if updates.isEmpty && !outputFlag then .ok []
  else do
    let acts ← processUpdates handlers devices allSessions updates
    let outActs ←
      if outputFlag then
        updateOutputDeviceForAllSessions handlers devices.outputDevices allSessions
          (Sum.inr true)
      else pure []
    pure (acts ++ outActs)

/-- The projected conversation participant record
(`IConversationParticipant`): the picked field subset with the user id
filled from the nested user object, which may be absent. -/
structure IConversationParticipant where
  id : String
  address : String
  purpose : String
  state : String
  direction : String
  muted : Bool
  confined : Bool
  userId : Option String
  deriving DecidableEq, Repr

/-- Outcome of `SoftphoneSessionHandler.getParticipantForSession`: the
resolution result, whether the participant list was fetched, and the
participant cached on the session afterwards. -/
structure ParticipantResolution where
  result : Except SdkError IConversationParticipant
  fetched : Bool
  cachedAfter : Option IConversationParticipant
  deriving Repr

/-- `SoftphoneSessionHandler.getParticipantForSession`: return the cached
participant when present; otherwise fetch, filter the list to the local
user id, and resolve — a unique match is taken, several matches are
narrowed to the "connected" ones and must narrow to exactly one, and
anything else is a `generic`-kind error; the resolved participant is
cached on the session. -/
def getParticipantForSession (cachedParticipant : Option IConversationParticipant)
    (fetchedParticipants : List IConversationParticipant) (localUserId : String) :
    ParticipantResolution :=
  match cachedParticipant with
  | some p => { result := .ok p, fetched := false, cachedAfter := some p }
  | none =>
    let participantsForUser :=
      fetchedParticipants.filter (fun p => p.userId == some localUserId)
    match participantsForUser with
    | [p] => { result := .ok p, fetched := true, cachedAfter := some p }
    | [] =>
      { result := .error { errType := .generic
                           message := "Failed to find a participant for session"
                           details := [] }
        fetched := true
        cachedAfter := none }
    | _ :: _ :: _ =>
      match participantsForUser.filter (fun p => p.state == "connected") with
      | [p] => { result := .ok p, fetched := true, cachedAfter := some p }
      | _ =>
        { result := .error
            { errType := .generic
              message := "Failed to find a connected participant for user on conversation"
              details := [localUserId] }
          fetched := true
          cachedAfter := none }

/-- Outcome of `SoftphoneSessionHandler.endSession`: the overall result
and whether the direct-terminate fallback was invoked. -/
structure SoftphoneEndResult where
  result : Except SdkError Unit
  fallbackInvoked : Bool
  deriving Repr

/-- `SoftphoneSessionHandler.endSessionFallback`: terminate directly via
the base handler; when even that fails, raise a `session`-kind error. -/
def endSessionFallback (superEndSessionResult : Except String Unit) :
    Except SdkError Unit :=
  match superEndSessionResult with
  | .ok _ => .ok ()
  | .error err => .error { errType := .session
                           message := "Failed to end session directly"
                           details := [err] }

/-- `SoftphoneSessionHandler.endSession`, as a function of the outcomes of
its suspension points: participant resolution and the REST patch of the
participant state to "disconnected" run inside the try block (the
transport "terminated" wait only resolves, never rejects); any failure
there is caught and routed to the fallback instead of being re-raised. -/
def softphoneEndSession (participantResult : Except SdkError IConversationParticipant)
    (patchResult : Except String Unit) (superEndSessionResult : Except String Unit) :
    SoftphoneEndResult :=
  match participantResult with
  | .error _ =>
    { result := endSessionFallback superEndSessionResult, fallbackInvoked := true }
  | .ok _ =>
    match patchResult with
    | .error _ =>
      { result := endSessionFallback superEndSessionResult, fallbackInvoked := true }
    | .ok _ => { result := .ok (), fallbackInvoked := false }

/-! Concrete fixtures used by witnesses and counterexamples. -/

/-- A concrete enabled softphone handler accepting every address. -/
def demoHandler : SessionHandler :=
  { sessionType := .softphone
    disabled := false
    shouldHandleSessionByJid := fun _ => true }

/-- A concrete pending session. -/
def demoPending : IPendingSession :=
  { id := "p1"
    autoAnswer := true
    address := "user@example.com"
    conversationId := "c1"
    sessionType := .softphone
    originalRoomJid := none
    fromUserId := none }

/-- A concrete proposal payload for the already-pending id. -/
def demoInfo : ISessionInfo :=
  { sessionId := "p1"
    autoAnswer := true
    fromJid := "user@example.com"
    conversationId := "c1"
    originalRoomJid := none
    fromUserId := none }

/-- A concrete active softphone session. -/
def demoSession : IJingleSession :=
  { id := "session-1"
    sid := "sid-1"
    peerID := "user@example.com"
    conversationId := "c1"
    sessionType := .softphone
    active := true
    screenShareStream := none
    senders := []
    outputAudioElement := none }

/-- A second concrete active softphone session. -/
def demoSessionTwo : IJingleSession :=
  { id := "session-2"
    sid := "sid-2"
    peerID := "agent@example.com"
    conversationId := "c2"
    sessionType := .softphone
    active := true
    screenShareStream := none
    senders := []
    outputAudioElement := none }

/-! Helper lemmas. -/

/-- A pending-registry miss means the id is not among the registered keys. -/
theorem getPendingSession_eq_none_iff (registry : PendingRegistry) (sid : String) :
    getPendingSession registry sid = none ↔ sid ∉ pendingKeys registry := by
  unfold getPendingSession pendingKeys
  rw [Option.map_eq_none']
  rw [List.find?_eq_none]
  constructor
  · intro h hmem
    rcases List.mem_map.mp hmem with ⟨p, hp, hfst⟩
    exact h p hp (by simp [hfst, beq_iff_eq])
  · intro h p hp hbeq
    exact h (List.mem_map.mpr ⟨p, hp, by simpa [beq_iff_eq] using hbeq⟩)

/-- The registry after `onPropose` is either untouched or extended by one
fresh id. -/
theorem onPropose_pendingSessions_cases (handlers : List SessionHandler)
    (registry : PendingRegistry) (info : ISessionInfo) :
    (onPropose handlers registry info).pendingSessions = registry ∨
    (getPendingSession registry info.sessionId = none ∧
      ∃ ps, (onPropose handlers registry info).pendingSessions
          = registry ++ [(info.sessionId, ps)]) := by
  unfold onPropose
  cases hh : getSessionHandlerByJid handlers info.fromJid with
  | error e => exact Or.inl rfl
  | ok handler =>
    cases hdis : handler.disabled with
    | true => simp [hdis]
    | false =>
      cases hp : getPendingSession registry info.sessionId with
      | some ps => simp [hdis, hp]
      | none =>
        refine Or.inr ⟨rfl, ?_⟩
        refine ⟨{ id := info.sessionId
                  autoAnswer := info.autoAnswer
                  address := info.fromJid
                  conversationId := info.conversationId
                  sessionType := handler.sessionType
                  originalRoomJid := info.originalRoomJid
                  fromUserId := info.fromUserId }, ?_⟩
        simp [hdis, hp]

/-- One `onPropose` step preserves uniqueness of the registered ids. -/
theorem pendingKeys_nodup_step (handlers : List SessionHandler)
    (registry : PendingRegistry) (info : ISessionInfo)
    (h : (pendingKeys registry).Nodup) :
    (pendingKeys (onPropose handlers registry info).pendingSessions).Nodup := by
  rcases onPropose_pendingSessions_cases handlers registry info with heq | ⟨hnone, ps, heq⟩
  · rw [heq]; exact h
  · rw [heq]
    have hkeys : pendingKeys (registry ++ [(info.sessionId, ps)])
        = pendingKeys registry ++ [info.sessionId] := by
      simp [pendingKeys]
    rw [hkeys, List.nodup_append]
    refine ⟨h, List.nodup_singleton _, ?_⟩
    intro a ha hmem
    have hnm := (getPendingSession_eq_none_iff registry info.sessionId).mp hnone
    have : a = info.sessionId := by simpa using hmem
    exact hnm (this ▸ ha)

/-- C1: if a pending entry with the proposed session id already exists,
`onPropose` leaves the registry unchanged and invokes no handler propose
hook, and consequently any sequence of `onPropose` calls keeps the
pending ids unique (at most one pending entry per id). -/
theorem onPropose_duplicate_noop_and_unique_ids (handlers : List SessionHandler)
    (registry : PendingRegistry) (info : ISessionInfo)
    (hdup : (getPendingSession registry info.sessionId).isSome = true) :
    (onPropose handlers registry info).pendingSessions = registry ∧
    (onPropose handlers registry info).actions = [] ∧
    ∀ infos : List ISessionInfo, ∀ startRegistry : PendingRegistry,
      (pendingKeys startRegistry).Nodup →
      (pendingKeys (onProposeSeq handlers startRegistry infos)).Nodup := by
  rcases Option.isSome_iff_exists.mp hdup with ⟨ps, hps⟩
  refine ⟨?_, ?_, ?_⟩
  · unfold onPropose
    cases hh : getSessionHandlerByJid handlers info.fromJid with
    | error e => rfl
    | ok handler =>
      cases hdis : handler.disabled with
      | true => simp [hdis]
      | false => simp [hdis, hps]
  · unfold onPropose
    cases hh : getSessionHandlerByJid handlers info.fromJid with
    | error e => rfl
    | ok handler =>
      cases hdis : handler.disabled with
      | true => simp [hdis]
      | false => simp [hdis, hps]
  · intro infos
    induction infos with
    | nil => intro startRegistry hnd; simpa [onProposeSeq] using hnd
    | cons hd tl ih =>
      intro startRegistry hnd
      have hstep := pendingKeys_nodup_step handlers startRegistry hd hnd
      simpa [onProposeSeq] using ih _ hstep

/-- C1 witness: a duplicate proposal for the registered id `p1` leaves the
one-entry registry as it is and performs no hook call. -/
theorem onPropose_duplicate_noop_and_unique_ids_witness :
    (getPendingSession [("p1", demoPending)] demoInfo.sessionId).isSome = true ∧
    (onPropose [demoHandler] [("p1", demoPending)] demoInfo).pendingSessions
      = [("p1", demoPending)] ∧
    (onPropose [demoHandler] [("p1", demoPending)] demoInfo).actions = [] := by
  have hdup : (getPendingSession [("p1", demoPending)] demoInfo.sessionId).isSome = true := by
    rfl
  have hmain := onPropose_duplicate_noop_and_unique_ids [demoHandler]
    [("p1", demoPending)] demoInfo hdup
  exact ⟨hdup, hmain.1, hmain.2.1⟩

/-- C2 counterexample: an end request with neither id raises the
`session`-kind guard error, not an `invalid_options`-kind one. -/
theorem endSession_no_ids_kind_counterexample :
    endSession [] [] { id := none, conversationId := none } =
      Except.error { errType := SdkErrorTypes.session
                     message := "Unable to end session: must provide session id or conversationId."
                     details := [] } ∧
    SdkErrorTypes.session ≠ SdkErrorTypes.invalid_options := by
  exact ⟨rfl, by decide⟩

/-- C2 amended: an end request with neither a truthy session id nor a
truthy conversation id raises the guard error of kind `session`, and it
does so uniformly in the session collection — before any lookup. -/
theorem endSession_no_ids_raises_session_before_lookup
    (sessions : List IJingleSession) (handlers : List SessionHandler)
    (params : SessionQuery)
    (hid : jsTruthy params.id = false)
    (hcid : jsTruthy params.conversationId = false) :
    endSession sessions handlers params =
      Except.error { errType := SdkErrorTypes.session
                     message := "Unable to end session: must provide session id or conversationId."
                     details := [] } := by
  unfold endSession
  rw [hid, hcid]
  rfl

/-- C2 amended witness: the guard error is raised even while a live
session exists in the collection. -/
theorem endSession_no_ids_raises_session_before_lookup_witness :
    jsTruthy (none : Option String) = false ∧
    endSession [demoSession] [demoHandler] { id := none, conversationId := none } =
      Except.error { errType := SdkErrorTypes.session
                     message := "Unable to end session: must provide session id or conversationId."
                     details := [] } := by
  exact ⟨rfl, endSession_no_ids_raises_session_before_lookup [demoSession] [demoHandler]
    { id := none, conversationId := none } rfl rfl⟩

/-- C3: accepting with an id that matches no live session raises the
`session`-kind lookup error whose context carries that id, and no handler
accept hook is invoked. -/
theorem acceptSession_unknown_id_session_error (sessions : List IJingleSession)
    (handlers : List SessionHandler) (sid : String)
    (hne : sid ≠ "") (hmiss : ∀ s ∈ sessions, s.id ≠ sid) :
    acceptSession sessions handlers (some sid) =
      Except.error { errType := SdkErrorTypes.session
                     message := "Unable to find session"
                     details := [sid] } ∧
    ∀ acts : List SdkAction, acceptSession sessions handlers (some sid) ≠ Except.ok acts := by
  have htr : jsTruthy (some sid) = true := by
    simp [jsTruthy, hne]
  have hfind : sessions.find? (fun s => s.id == (some sid).getD "") = none := by
    rw [List.find?_eq_none]
    intro s hs
    simp [beq_iff_eq]
    exact hmiss s hs
  have hget : getSession sessions { id := some sid, conversationId := none } =
      Except.error { errType := SdkErrorTypes.session
                     message := "Unable to find session"
                     details := [sid] } := by
    unfold getSession
    rw [htr]
    simp only [if_true]
    rw [hfind]
    rfl
  constructor
  · unfold acceptSession
    rw [htr]
    simp only [Bool.not_true, Bool.false_eq_true, if_false]
    rw [hget]
    rfl
  · intro acts
    unfold acceptSession
    rw [htr]
    simp only [Bool.not_true, Bool.false_eq_true, if_false]
    rw [hget]
    intro hcontra
    exact Except.noConfusion hcontra

/-- C3 witness: accepting the nonexistent id `s1` while only `session-1`
is live yields the `session`-kind error referencing `s1`. -/
theorem acceptSession_unknown_id_session_error_witness :
    ("s1" ≠ "") ∧ (∀ s ∈ [demoSession], s.id ≠ "s1") ∧
    acceptSession [demoSession] [demoHandler] (some "s1") =
      Except.error { errType := SdkErrorTypes.session
                     message := "Unable to find session"
                     details := ["s1"] } := by
  have h1 : ("s1" : String) ≠ "" := by decide
  have h2 : ∀ s ∈ [demoSession], s.id ≠ "s1" := by
    intro s hs
    simp at hs
    subst hs
    decide
  exact ⟨h1, h2, (acceptSession_unknown_id_session_error [demoSession] [demoHandler] "s1" h1 h2).1⟩

/-- A concrete connected participant for the local user. -/
def demoParticipantA : IConversationParticipant :=
  { id := "part-1"
    address := "tel:+15550100"
    purpose := "user"
    state := "connected"
    direction := "inbound"
    muted := false
    confined := false
    userId := some "user-1" }

/-- A concrete disconnected duplicate participant for the same user. -/
def demoParticipantB : IConversationParticipant :=
  { id := "part-2"
    address := "tel:+15550100"
    purpose := "user"
    state := "disconnected"
    direction := "inbound"
    muted := false
    confined := false
    userId := some "user-1" }

/-- C4: the softphone graceful end races the participant patch with the
terminated wait inside one guarded block; when both succeed it completes
with no fallback, when either leg fails the failure is not re-raised and
the direct-terminate fallback runs instead, and an error — necessarily of
kind `session` — surfaces only when that fallback itself fails. -/
theorem softphoneEndSession_graceful_end_fallback
    (participantResult : Except SdkError IConversationParticipant)
    (patchResult superEndSessionResult : Except String Unit) :
    (∀ p, participantResult = Except.ok p → ∀ u, patchResult = Except.ok u →
      softphoneEndSession participantResult patchResult superEndSessionResult =
        { result := Except.ok (), fallbackInvoked := false }) ∧
    (((∃ e, participantResult = Except.error e) ∨ (∃ m, patchResult = Except.error m)) →
      (softphoneEndSession participantResult patchResult superEndSessionResult).fallbackInvoked
          = true ∧
      (softphoneEndSession participantResult patchResult superEndSessionResult).result
          = endSessionFallback superEndSessionResult ∧
      (superEndSessionResult = Except.ok () →
        (softphoneEndSession participantResult patchResult superEndSessionResult).result
            = Except.ok ())) ∧
    (∀ e, (softphoneEndSession participantResult patchResult superEndSessionResult).result
        = Except.error e →
      e.errType = SdkErrorTypes.session ∧ ∃ m, superEndSessionResult = Except.error m) := by
  refine ⟨?_, ?_, ?_⟩
  · intro p hp u hu
    simp [softphoneEndSession, hp, hu]
  · intro hfail
    have hfb : softphoneEndSession participantResult patchResult superEndSessionResult =
        { result := endSessionFallback superEndSessionResult, fallbackInvoked := true } := by
      rcases hfail with ⟨e, he⟩ | ⟨m, hm⟩
      · simp [softphoneEndSession, he]
      · cases participantResult with
        | error e2 => simp [softphoneEndSession]
        | ok p => simp [softphoneEndSession, hm]
    refine ⟨by rw [hfb], by rw [hfb], ?_⟩
    intro hsup
    rw [hfb]
    simp [endSessionFallback, hsup]
  · intro e he
    cases participantResult with
    | error e2 =>
      cases superEndSessionResult with
      | ok u => simp [softphoneEndSession, endSessionFallback] at he
      | error m =>
        simp [softphoneEndSession, endSessionFallback] at he
        exact ⟨by rw [← he], ⟨m, rfl⟩⟩
    | ok p =>
      cases patchResult with
      | ok u => simp [softphoneEndSession] at he
      | error m2 =>
        cases superEndSessionResult with
        | ok u => simp [softphoneEndSession, endSessionFallback] at he
        | error m =>
          simp [softphoneEndSession, endSessionFallback] at he
          exact ⟨by rw [← he], ⟨m, rfl⟩⟩

/-- C4 witness: with the REST patch leg failing and the direct terminate
succeeding, the fallback runs and the end completes without an error. -/
theorem softphoneEndSession_graceful_end_fallback_witness :
    ((Except.error "patch failed" : Except String Unit) = Except.error "patch failed") ∧
    (softphoneEndSession (Except.ok demoParticipantA) (Except.error "patch failed")
        (Except.ok ())).fallbackInvoked = true ∧
    (softphoneEndSession (Except.ok demoParticipantA) (Except.error "patch failed")
        (Except.ok ())).result = Except.ok () := by
  have h := (softphoneEndSession_graceful_end_fallback (Except.ok demoParticipantA)
    (Except.error "patch failed") (Except.ok ())).2.1 (Or.inr ⟨"patch failed", rfl⟩)
  exact ⟨rfl, h.1, h.2.2 rfl⟩

/-- C9: participant resolution returns the cached record without fetching
when one is present; otherwise it filters the fetched list to the local
user id, raises a `generic`-kind hard error when several records match
but the "connected" narrowing does not yield exactly one, and on success
resolves to a record from the filtered list and caches it. -/
theorem getParticipantForSession_resolution
    (cachedParticipant : Option IConversationParticipant)
    (fetchedParticipants : List IConversationParticipant) (localUserId : String) :
    (∀ p, cachedParticipant = some p →
      getParticipantForSession cachedParticipant fetchedParticipants localUserId =
        { result := Except.ok p, fetched := false, cachedAfter := some p }) ∧
    (cachedParticipant = none →
      2 ≤ (fetchedParticipants.filter (fun p => p.userId == some localUserId)).length →
      ((fetchedParticipants.filter (fun p => p.userId == some localUserId)).filter
          (fun p => p.state == "connected")).length ≠ 1 →
      ∃ e, (getParticipantForSession cachedParticipant fetchedParticipants
              localUserId).result = Except.error e ∧
        e.errType = SdkErrorTypes.generic ∧
        (getParticipantForSession cachedParticipant fetchedParticipants
            localUserId).cachedAfter = none) ∧
    (cachedParticipant = none → ∀ p,
      (getParticipantForSession cachedParticipant fetchedParticipants
          localUserId).result = Except.ok p →
      p ∈ fetchedParticipants.filter (fun q => q.userId == some localUserId) ∧
      (getParticipantForSession cachedParticipant fetchedParticipants
          localUserId).fetched = true ∧
      (getParticipantForSession cachedParticipant fetchedParticipants
          localUserId).cachedAfter = some p) := by
  refine ⟨?_, ?_, ?_⟩
  · intro p hp
    simp [getParticipantForSession, hp]
  · intro hc h2 hne1
    subst hc
    cases hpfu : fetchedParticipants.filter (fun p => p.userId == some localUserId) with
    | nil => rw [hpfu] at h2; simp at h2
    | cons a tl =>
      cases tl with
      | nil => rw [hpfu] at h2; simp at h2
      | cons b tl2 =>
        rw [hpfu] at hne1
        cases hconn : (a :: b :: tl2).filter (fun p => p.state == "connected") with
        | nil =>
          refine ⟨{ errType := .generic
                    message := "Failed to find a connected participant for user on conversation"
                    details := [localUserId] }, ?_, rfl, ?_⟩ <;>
            simp [getParticipantForSession, hpfu, hconn]
        | cons c tl3 =>
          cases tl3 with
          | nil => rw [hconn] at hne1; simp at hne1
          | cons d tl4 =>
            refine ⟨{ errType := .generic
                      message := "Failed to find a connected participant for user on conversation"
                      details := [localUserId] }, ?_, rfl, ?_⟩ <;>
              simp [getParticipantForSession, hpfu, hconn]
  · intro hc p hok
    subst hc
    cases hpfu : fetchedParticipants.filter (fun q => q.userId == some localUserId) with
    | nil => simp [getParticipantForSession, hpfu] at hok
    | cons a tl =>
      cases tl with
      | nil =>
        simp [getParticipantForSession, hpfu] at hok
        subst hok
        refine ⟨?_, ?_, ?_⟩
        · exact List.mem_singleton_self a
        · simp [getParticipantForSession, hpfu]
        · simp [getParticipantForSession, hpfu]
      | cons b tl2 =>
        cases hconn : (a :: b :: tl2).filter (fun q => q.state == "connected") with
        | nil => simp [getParticipantForSession, hpfu, hconn] at hok
        | cons c tl3 =>
          cases tl3 with
          | nil =>
            simp [getParticipantForSession, hpfu, hconn] at hok
            subst hok
            have hcmem : c ∈ (a :: b :: tl2).filter (fun q => q.state == "connected") := by
              rw [hconn]; exact List.mem_singleton_self c
            have hcmem2 : c ∈ (a :: b :: tl2) := (List.mem_filter.mp hcmem).1
            refine ⟨?_, ?_, ?_⟩
            · exact hcmem2
            · simp [getParticipantForSession, hpfu, hconn]
            · simp [getParticipantForSession, hpfu, hconn]
          | cons d tl4 => simp [getParticipantForSession, hpfu, hconn] at hok

/-- C9 witness: with no cached record, two fetched records for the local
user of which exactly one is connected, resolution succeeds with the
connected one, fetches once, and caches the result. -/
theorem getParticipantForSession_resolution_witness :
    (getParticipantForSession none [demoParticipantA, demoParticipantB] "user-1").result
        = Except.ok demoParticipantA ∧
    demoParticipantA ∈ [demoParticipantA, demoParticipantB].filter
        (fun q => q.userId == some "user-1") ∧
    (getParticipantForSession none [demoParticipantA, demoParticipantB] "user-1").fetched
        = true ∧
    (getParticipantForSession none [demoParticipantA, demoParticipantB]
        "user-1").cachedAfter = some demoParticipantA := by
  have hok : (getParticipantForSession none [demoParticipantA, demoParticipantB]
      "user-1").result = Except.ok demoParticipantA := by rfl
  have h := (getParticipantForSession_resolution none [demoParticipantA, demoParticipantB]
    "user-1").2.2 rfl demoParticipantA hok
  exact ⟨hok, h.1, h.2.1, h.2.2⟩

/-- Fan-out characterization: when every listed session resolves a
handler, the output-device fan-out issues one `updateOutputDevice` call
per session, with the resolved id, in session order. -/
theorem fanOutOutputDevice_ok (handlers : List SessionHandler) (resolvedId : String)
    (l : List IJingleSession)
    (h : ∀ s ∈ l, s.peerID ≠ "" ∧
      (handlers.find? (fun hh => hh.shouldHandleSessionByJid s.peerID)).isSome = true) :
    fanOutOutputDevice handlers resolvedId l =
      Except.ok (l.map (fun s => SdkAction.updateOutputDevice s.id resolvedId)) := by
  induction l with
  | nil => rfl
  | cons s rest ih =>
    obtain ⟨hne, hfind⟩ := h s (List.mem_cons_self s rest)
    rcases Option.isSome_iff_exists.mp hfind with ⟨hh, hhh⟩
    have hgh : getSessionHandlerByJid handlers s.peerID = Except.ok hh := by
      simp [getSessionHandlerByJid, hne, hhh]
    have hrest := ih (fun x hx => h x (List.mem_cons_of_mem s hx))
    simp only [fanOutOutputDevice]
    rw [hgh, hrest]
    rfl

/-- C8 counterexample: the empty string is a literal id absent from an
empty output inventory, yet with two active sessions the update is not
skipped — it fans out with the degraded empty id. -/
theorem updateOutputDevice_empty_literal_id_fans_out :
    (∀ d ∈ ([] : List MediaDeviceInfo), d.deviceId ≠ "") ∧
    updateOutputDeviceForAllSessions [demoHandler] [] [demoSession, demoSessionTwo]
        (Sum.inl (some "")) =
      Except.ok [SdkAction.updateOutputDevice "session-1" "",
                 SdkAction.updateOutputDevice "session-2" ""] := by
  exact ⟨by simp, rfl⟩

/-- C8 amended: for every nonempty literal output device id absent from
the output inventory, no handler `updateOutputDevice` call is made and
the operation returns normally. -/
theorem updateOutputDevice_unknown_literal_id_noop (handlers : List SessionHandler)
    (outputDevices : List MediaDeviceInfo) (allSessions : List IJingleSession)
    (sid : String) (hne : sid ≠ "")
    (hmiss : ∀ d ∈ outputDevices, d.deviceId ≠ sid) :
    updateOutputDeviceForAllSessions handlers outputDevices allSessions (Sum.inl (some sid))
      = Except.ok [] := by
  have hany : outputDevices.any (fun d => d.deviceId == sid) = false := by
    rw [Bool.eq_false_iff]
    intro hcontra
    rcases List.any_eq_true.mp hcontra with ⟨d, hd, hbeq⟩
    exact hmiss d hd (by simpa [beq_iff_eq] using hbeq)
  have hempty : ("" : String) ≠ sid := fun hcontra => hne hcontra.symm
  simp [updateOutputDeviceForAllSessions, getValidDeviceId, hany, hempty]

/-- C8 amended witness: a bogus nonempty id against a one-device
inventory and one active session produces no update call. -/
theorem updateOutputDevice_unknown_literal_id_noop_witness :
    (("bogus-device" : String) ≠ "") ∧
    (∀ d ∈ [({ deviceId := "speaker-1", label := "Speakers", kind := "audiooutput" }
        : MediaDeviceInfo)], d.deviceId ≠ "bogus-device") ∧
    updateOutputDeviceForAllSessions [demoHandler]
        [{ deviceId := "speaker-1", label := "Speakers", kind := "audiooutput" }]
        [demoSession] (Sum.inl (some "bogus-device")) = Except.ok [] := by
  have h1 : ("bogus-device" : String) ≠ "" := by decide
  have h2 : ∀ d ∈ [({ deviceId := "speaker-1", label := "Speakers", kind := "audiooutput" }
      : MediaDeviceInfo)], d.deviceId ≠ "bogus-device" := by
    intro d hd
    simp at hd
    subst hd
    decide
  exact ⟨h1, h2, updateOutputDevice_unknown_literal_id_noop [demoHandler]
    [{ deviceId := "speaker-1", label := "Speakers", kind := "audiooutput" }]
    [demoSession] "bogus-device" h1 h2⟩

/-- Evaluation of `updateOutputDeviceForAllSessions` for a non-string
argument: the literal-id guard is skipped and the call fans out over the
active non-screen-share sessions with the resolved id. -/
theorem updateOutputDeviceForAllSessions_sentinel_eval (handlers : List SessionHandler)
    (outputDevices : List MediaDeviceInfo) (allSessions : List IJingleSession)
    (arg : OutputDeviceIdArg)
    (harg : arg = Sum.inl none ∨ ∃ b, arg = Sum.inr b)
    (hmatch : ∀ s ∈ (getAllActiveSessions allSessions).filter
        (fun s => !(s.sessionType == SessionTypes.acdScreenShare)),
      s.peerID ≠ "" ∧
      (handlers.find? (fun hh => hh.shouldHandleSessionByJid s.peerID)).isSome = true) :
    updateOutputDeviceForAllSessions handlers outputDevices allSessions arg =
      Except.ok (((getAllActiveSessions allSessions).filter
          (fun s => !(s.sessionType == SessionTypes.acdScreenShare))).map
        (fun s => SdkAction.updateOutputDevice s.id
          ((getValidDeviceId outputDevices arg).getD ""))) := by
  have hfan := fanOutOutputDevice_ok handlers ((getValidDeviceId outputDevices arg).getD "")
    ((getAllActiveSessions allSessions).filter
      (fun s => !(s.sessionType == SessionTypes.acdScreenShare))) hmatch
  rcases harg with h | ⟨b, h⟩ <;> subst h <;>
    simpa [updateOutputDeviceForAllSessions] using hfan

/-- C10: with a non-string argument (the boolean sentinel or null) the
literal-id guard never returns early, so the update fans out to every
active non-screen-share session with the resolved id, which degrades to
the empty string when no output device can be resolved. -/
theorem updateOutputDevice_non_string_arg_fans_out (handlers : List SessionHandler)
    (outputDevices : List MediaDeviceInfo) (allSessions : List IJingleSession)
    (arg : OutputDeviceIdArg)
    (harg : arg = Sum.inl none ∨ ∃ b, arg = Sum.inr b)
    (hmatch : ∀ s ∈ (getAllActiveSessions allSessions).filter
        (fun s => !(s.sessionType == SessionTypes.acdScreenShare)),
      s.peerID ≠ "" ∧
      (handlers.find? (fun hh => hh.shouldHandleSessionByJid s.peerID)).isSome = true) :
    updateOutputDeviceForAllSessions handlers outputDevices allSessions arg =
      Except.ok (((getAllActiveSessions allSessions).filter
          (fun s => !(s.sessionType == SessionTypes.acdScreenShare))).map
        (fun s => SdkAction.updateOutputDevice s.id
          ((getValidDeviceId outputDevices arg).getD ""))) ∧
    (outputDevices = [] → (getValidDeviceId outputDevices arg).getD "" = "") := by
  constructor
  · exact updateOutputDeviceForAllSessions_sentinel_eval handlers outputDevices allSessions
      arg harg hmatch
  · intro hout
    subst hout
    rcases harg with h | ⟨b, h⟩ <;> subst h <;> rfl

/-- C10 witness: with the boolean sentinel, an empty output inventory and
two active softphone sessions, both sessions receive an
`updateOutputDevice` call with the degraded empty id. -/
theorem updateOutputDevice_non_string_arg_fans_out_witness :
    ((Sum.inr true : OutputDeviceIdArg) = Sum.inr true) ∧
    updateOutputDeviceForAllSessions [demoHandler] [] [demoSession, demoSessionTwo]
        (Sum.inr true) =
      Except.ok [SdkAction.updateOutputDevice "session-1" "",
                 SdkAction.updateOutputDevice "session-2" ""] := by
  have hmatch : ∀ s ∈ (getAllActiveSessions [demoSession, demoSessionTwo]).filter
      (fun s => !(s.sessionType == SessionTypes.acdScreenShare)),
      s.peerID ≠ "" ∧
      ([demoHandler].find? (fun hh => hh.shouldHandleSessionByJid s.peerID)).isSome = true := by
    intro s hs
    simp [getAllActiveSessions, demoSession, demoSessionTwo] at hs
    rcases hs with h | h <;> subst h <;> exact ⟨by decide, rfl⟩
  have h := (updateOutputDevice_non_string_arg_fans_out [demoHandler] []
    [demoSession, demoSessionTwo] (Sum.inr true) (Or.inr ⟨true, rfl⟩) hmatch).1
  exact ⟨rfl, by simpa using h⟩

/-- Well-formedness used by the reconciliation theorems: transport session
ids are unique and nonempty, and every session resolves a handler by its
peer address. -/
def SessionsWellFormed (handlers : List SessionHandler)
    (allSessions : List IJingleSession) : Prop :=
  (allSessions.map (fun s => s.id)).Nodup ∧
  (∀ s ∈ allSessions, s.id ≠ "") ∧
  (∀ s ∈ allSessions, s.peerID ≠ "" ∧
    (handlers.find? (fun hh => hh.shouldHandleSessionByJid s.peerID)).isSome = true)

/-- With unique ids, the id lookup of a member finds exactly that member. -/
theorem find?_by_id_eq_some (l : List IJingleSession) (s : IJingleSession)
    (hnd : (l.map (fun x => x.id)).Nodup) (hmem : s ∈ l) :
    l.find? (fun x => x.id == s.id) = some s := by
  induction l with
  | nil => cases hmem
  | cons a rest ih =>
    have hnd2 : (rest.map (fun x => x.id)).Nodup :=
      (List.nodup_cons.mp (by simpa using hnd)).2
    rcases List.mem_cons.mp hmem with heq | hmem2
    · subst heq
      simp [List.find?_cons]
    · have hane : (a.id == s.id) = false := by
        rw [beq_eq_false_iff_ne]
        intro hcontra
        have hsmem : a.id ∈ rest.map (fun x => x.id) :=
          List.mem_map.mpr ⟨s, hmem2, hcontra.symm⟩
        exact (List.nodup_cons.mp (by simpa using hnd)).1 hsmem
      rw [List.find?_cons, hane]
      exact ih hnd2 hmem2

/-- For a well-formed member session, the second-phase entry handling
resolves that session and produces exactly its flag actions. -/
theorem sessionUpdateActions_eq (handlers : List SessionHandler)
    (devices : EnumeratedDevices) (allSessions : List IJingleSession)
    (x : IJingleSession) (fl : MediaUpdateFlags)
    (hwf : SessionsWellFormed handlers allSessions) (hmem : x ∈ allSessions) :
    sessionUpdateActions handlers devices allSessions (x.id, fl) =
      Except.ok (flagActions devices x.id x fl) := by
  obtain ⟨hnd, hids, hjids⟩ := hwf
  have hid := hids x hmem
  obtain ⟨hpne, hfind⟩ := hjids x hmem
  have htr : jsTruthy (some x.id) = true := by simp [jsTruthy, hid]
  have hfindx := find?_by_id_eq_some allSessions x hnd hmem
  have hget : getSession allSessions { id := some x.id, conversationId := none } =
      Except.ok x := by
    simp [getSession, htr, hfindx]
  rcases Option.isSome_iff_exists.mp hfind with ⟨hh, hhh⟩
  have hgh : getSessionHandlerByJid handlers x.peerID = Except.ok hh := by
    simp [getSessionHandlerByJid, hpne, hhh]
  unfold sessionUpdateActions
  rw [hget]
  show (getSessionHandlerByJid handlers x.peerID >>=
    fun _ => pure (flagActions devices x.id x fl)) = _
  rw [hgh]
  rfl

/-- A session with a missing-device track contributes its entry to the
device-update plan. -/
theorem mem_buildUpdates_of_missing (devices : EnumeratedDevices)
    (sessions : List IJingleSession) (s : IJingleSession)
    (hmem : s ∈ sessions) (hne : missingTracks devices s ≠ []) :
    (s.id, sessionUpdateFlags devices s) ∈ buildUpdates devices sessions := by
  unfold buildUpdates
  refine List.mem_filterMap.mpr ⟨s, hmem, ?_⟩
  have hf : (missingTracks devices s).isEmpty = false := by
    rw [List.isEmpty_eq_false]
    exact hne
  rw [hf]
  simp

/-- Every device-update-plan entry comes from a listed session with a
missing-device track. -/
theorem of_mem_buildUpdates (devices : EnumeratedDevices)
    (sessions : List IJingleSession) (entry : String × MediaUpdateFlags)
    (hmem : entry ∈ buildUpdates devices sessions) :
    ∃ s ∈ sessions, entry = (s.id, sessionUpdateFlags devices s) ∧
      missingTracks devices s ≠ [] := by
  unfold buildUpdates at hmem
  rcases List.mem_filterMap.mp hmem with ⟨s, hs, hsome⟩
  cases hmt : (missingTracks devices s).isEmpty with
  | true => rw [hmt] at hsome; simp at hsome
  | false =>
    rw [hmt] at hsome
    simp at hsome
    exact ⟨s, hs, hsome.symm, List.isEmpty_eq_false.mp hmt⟩

/-- The second phase succeeds on a plan whose every entry succeeds, and
its output is characterized by per-entry membership in both directions. -/
theorem processUpdates_characterization (handlers : List SessionHandler)
    (devices : EnumeratedDevices) (allSessions : List IJingleSession)
    (entries : List (String × MediaUpdateFlags)) :
    (∀ e ∈ entries, ∃ ea,
        sessionUpdateActions handlers devices allSessions e = Except.ok ea) →
    ∃ acts, processUpdates handlers devices allSessions entries = Except.ok acts ∧
      (∀ e ∈ entries, ∀ ea,
        sessionUpdateActions handlers devices allSessions e = Except.ok ea →
        ∀ x ∈ ea, x ∈ acts) ∧
      (∀ x ∈ acts, ∃ e ∈ entries, ∃ ea,
        sessionUpdateActions handlers devices allSessions e = Except.ok ea ∧ x ∈ ea) := by
  induction entries with
  | nil =>
    intro _
    exact ⟨[], rfl, by simp, by simp⟩
  | cons e rest ih =>
    intro hok
    obtain ⟨ea, hea⟩ := hok e (List.mem_cons_self e rest)
    obtain ⟨racts, hr, hfwd, hbwd⟩ := ih (fun e2 he2 => hok e2 (List.mem_cons_of_mem e he2))
    refine ⟨ea ++ racts, ?_, ?_, ?_⟩
    · simp only [processUpdates]
      rw [hea]
      show (processUpdates handlers devices allSessions rest >>=
        fun restActs => pure (ea ++ restActs)) = _
      rw [hr]
      rfl
    · intro e2 he2 ea2 hea2 x hx
      rcases List.mem_cons.mp he2 with heq | hmem2
      · subst heq
        rw [hea] at hea2
        have := Except.ok.inj hea2
        subst this
        exact List.mem_append_left _ hx
      · exact List.mem_append_right _ (hfwd e2 hmem2 ea2 hea2 x hx)
    · intro x hx
      rcases List.mem_append.mp hx with hx1 | hx2
      · exact ⟨e, List.mem_cons_self e rest, ea, hea, hx1⟩
      · obtain ⟨e2, he2, ea2, hea2, hx3⟩ := hbwd x hx2
        exact ⟨e2, List.mem_cons_of_mem e he2, ea2, hea2, hx3⟩

/-- Classification of the calls issued for one flagged session: a video
mute only on the no-video-device path, the audio mute and track
stop-and-removals only on the no-audio-device path, and otherwise the
single combined outgoing-media update carrying the computed sentinels. -/
theorem mem_flagActions_cases (devices : EnumeratedDevices) (sessionId : String)
    (y : IJingleSession) (fl : MediaUpdateFlags) (x : SdkAction)
    (hx : x ∈ flagActions devices sessionId y fl) :
    ((fl.video && devices.videoDevices.isEmpty) = true ∧
      x = SdkAction.setVideoMute y.id true) ∨
    ((fl.audio && devices.audioDevices.isEmpty) = true ∧
      (x = SdkAction.setAudioMute y.id true ∨
       (∃ tid, x = SdkAction.stopTrack tid) ∨
       (∃ tid, x = SdkAction.removeMediaFromSession y.id tid) ∨
       (∃ tid, x = SdkAction.removeTrackFromOutboundStream y.id tid))) ∨
    (x = SdkAction.updateOutgoingMedia sessionId
      (fl.video && !devices.videoDevices.isEmpty)
      (fl.audio && !devices.audioDevices.isEmpty)) := by
  unfold flagActions at hx
  rcases List.mem_append.mp hx with hmem | hup
  · rcases List.mem_append.mp hmem with hv | ha
    · left
      cases hcv : (fl.video && devices.videoDevices.isEmpty) with
      | false => rw [hcv] at hv; simp at hv
      | true =>
        rw [hcv] at hv
        simp at hv
        exact ⟨rfl, hv⟩
    · right; left
      cases hca : (fl.audio && devices.audioDevices.isEmpty) with
      | false => rw [hca] at ha; simp at ha
      | true =>
        rw [hca] at ha
        refine ⟨rfl, ?_⟩
        rcases List.mem_cons.mp ha with hmute | hrest
        · exact Or.inl hmute
        · right
          rcases List.mem_flatMap.mp hrest with ⟨sn, hsn, hxin⟩
          cases htr : sn.track with
          | none => rw [htr] at hxin; simp at hxin
          | some t =>
            rw [htr] at hxin
            simp at hxin
            rcases hxin with h1 | h1 | h1
            · exact Or.inl ⟨t.id, h1⟩
            · exact Or.inr (Or.inl ⟨t.id, h1⟩)
            · exact Or.inr (Or.inr ⟨t.id, h1⟩)
  · right; right
    cases hc : ((fl.video && !devices.videoDevices.isEmpty) ||
        (fl.audio && !devices.audioDevices.isEmpty)) with
    | false => rw [hc] at hup; simp at hup
    | true =>
      rw [hc] at hup
      simpa using hup

/-- Evaluation of the reconciliation pass under well-formed sessions: it
returns normally, every flagged entry contributes all of its flag
actions, and every emitted action is either one of a flagged entry or an
output-device update from the global output leg. -/
theorem validateOutgoingMediaTracks_characterization
    (handlers : List SessionHandler) (hasOutputSupport : Bool)
    (devices : EnumeratedDevices) (allSessions : List IJingleSession)
    (hwf : SessionsWellFormed handlers allSessions) :
    ∃ acts, validateOutgoingMediaTracks handlers hasOutputSupport devices allSessions
        = Except.ok acts ∧
      (∀ e ∈ buildUpdates devices (getAllActiveSessions allSessions), ∀ ea,
        sessionUpdateActions handlers devices allSessions e = Except.ok ea →
        ∀ x ∈ ea, x ∈ acts) ∧
      (∀ x ∈ acts,
        (∃ e ∈ buildUpdates devices (getAllActiveSessions allSessions), ∃ ea,
          sessionUpdateActions handlers devices allSessions e = Except.ok ea ∧ x ∈ ea) ∨
        (∃ sid did, x = SdkAction.updateOutputDevice sid did)) := by
  have hentriesOk : ∀ e ∈ buildUpdates devices (getAllActiveSessions allSessions), ∃ ea,
      sessionUpdateActions handlers devices allSessions e = Except.ok ea := by
    intro e he
    obtain ⟨y, hy, heq, _⟩ := of_mem_buildUpdates devices (getAllActiveSessions allSessions) e he
    have hyall : y ∈ allSessions := List.mem_filter.mp hy |>.1
    subst heq
    exact ⟨_, sessionUpdateActions_eq handlers devices allSessions y
      (sessionUpdateFlags devices y) hwf hyall⟩
  obtain ⟨acts0, hpu, hfwd, hbwd⟩ :=
    processUpdates_characterization handlers devices allSessions
      (buildUpdates devices (getAllActiveSessions allSessions)) hentriesOk
  have hmatchOut : ∀ s ∈ (getAllActiveSessions allSessions).filter
      (fun s => !(s.sessionType == SessionTypes.acdScreenShare)),
      s.peerID ≠ "" ∧
      (handlers.find? (fun hh => hh.shouldHandleSessionByJid s.peerID)).isSome = true := by
    intro s hs
    exact hwf.2.2 s (List.mem_filter.mp (List.mem_filter.mp hs |>.1) |>.1)
  cases hbranch : ((buildUpdates devices (getAllActiveSessions allSessions)).isEmpty &&
      !(outputDeviceFlag hasOutputSupport devices (getAllActiveSessions allSessions))) with
  | true =>
    have hupd : buildUpdates devices (getAllActiveSessions allSessions) = [] := by
      have := (Bool.and_eq_true _ _).mp hbranch |>.1
      exact List.isEmpty_iff.mp this
    refine ⟨[], ?_, ?_, ?_⟩
    · unfold validateOutgoingMediaTracks
      simp [hbranch]
    · intro e he
      rw [hupd] at he
      cases he
    · intro x hx
      cases hx
  | false =>
    cases hflag : outputDeviceFlag hasOutputSupport devices (getAllActiveSessions allSessions) with
    | false =>
      have hie : (buildUpdates devices (getAllActiveSessions allSessions)).isEmpty = false := by
        cases hie2 : (buildUpdates devices (getAllActiveSessions allSessions)).isEmpty with
        | false => rfl
        | true => rw [hie2, hflag] at hbranch; simp at hbranch
      have hne : buildUpdates devices (getAllActiveSessions allSessions) ≠ [] :=
        List.isEmpty_eq_false.mp hie
      refine ⟨acts0, ?_, ?_, ?_⟩
      · unfold validateOutgoingMediaTracks
        simp [hbranch, hflag, hpu, hne]
      · intro e he ea hea x hx
        exact hfwd e he ea hea x hx
      · intro x hx
        exact Or.inl (hbwd x hx)
    | true =>
      have hout := updateOutputDeviceForAllSessions_sentinel_eval handlers
        devices.outputDevices allSessions (Sum.inr true) (Or.inr ⟨true, rfl⟩) hmatchOut
      refine ⟨acts0 ++ ((getAllActiveSessions allSessions).filter
          (fun s => !(s.sessionType == SessionTypes.acdScreenShare))).map
        (fun s => SdkAction.updateOutputDevice s.id
          ((getValidDeviceId devices.outputDevices (Sum.inr true)).getD "")), ?_, ?_, ?_⟩
      · unfold validateOutgoingMediaTracks
        simp [hbranch, hflag]
        rw [hpu]
        show (updateOutputDeviceForAllSessions handlers devices.outputDevices allSessions
            (Sum.inr true) >>= fun y => pure (acts0 ++ y)) = _
        rw [hout]
        rfl
      · intro e he ea hea x hx
        exact List.mem_append_left _ (hfwd e he ea hea x hx)
      · intro x hx
        rcases List.mem_append.mp hx with hx1 | hx2
        · exact Or.inl (hbwd x hx1)
        · right
          rcases List.mem_map.mp hx2 with ⟨s, _, hxeq⟩
          exact ⟨s.id, _, hxeq.symm⟩

/-- C7: when every outgoing track of every active session (screen-share
capture tracks excluded) still has a matching device in the inventory and
no active session with an attached output element has lost its selected
output device, the reconciliation pass performs no update calls at all. -/
theorem validate_no_missing_devices_noop (handlers : List SessionHandler)
    (hasOutputSupport : Bool) (devices : EnumeratedDevices)
    (allSessions : List IJingleSession)
    (htracks : ∀ s ∈ allSessions, s.active = true →
      ∀ t ∈ outgoingTracksToCheck s,
        deviceExistsForTrack (deviceListForTrack devices t) t = true)
    (hout : ∀ s ∈ allSessions, s.active = true →
      ∀ sinkId, s.outputAudioElement = some sinkId → hasOutputSupport = true →
        devices.outputDevices.any (fun d => d.deviceId == sinkId) = true) :
    validateOutgoingMediaTracks handlers hasOutputSupport devices allSessions
      = Except.ok [] := by
  have hupd : buildUpdates devices (getAllActiveSessions allSessions) = [] := by
    unfold buildUpdates
    rw [List.filterMap_eq_nil_iff]
    intro s hs
    have hsall : s ∈ allSessions := (List.mem_filter.mp hs).1
    have hsact : s.active = true := by simpa using (List.mem_filter.mp hs).2
    have hmt : missingTracks devices s = [] := by
      unfold missingTracks
      rw [List.filter_eq_nil_iff]
      intro t ht
      simp [htracks s hsall hsact t ht]
    rw [hmt]
    rfl
  have hflag : outputDeviceFlag hasOutputSupport devices
      (getAllActiveSessions allSessions) = false := by
    unfold outputDeviceFlag
    cases hsup : hasOutputSupport with
    | false => rfl
    | true =>
      simp only [Bool.true_and]
      rw [List.any_eq_false]
      intro s hs
      have hsall : s ∈ allSessions := (List.mem_filter.mp hs).1
      have hsact : s.active = true := by simpa using (List.mem_filter.mp hs).2
      cases hel : s.outputAudioElement with
      | none => simp
      | some sinkId => simp [hout s hsall hsact sinkId hel hsup]
  unfold validateOutgoingMediaTracks
  simp [hupd, hflag]

/-- A healthy active session: its one audio sender track matches a device
in the inventory below. -/
def demoMicSession : IJingleSession :=
  { id := "session-3"
    sid := "sid-3"
    peerID := "user@example.com"
    conversationId := "c3"
    sessionType := .softphone
    active := true
    screenShareStream := none
    senders := [{ track := some { id := "track-1", kind := "audio", label := "Mic" } }]
    outputAudioElement := none }

/-- An inventory still containing the device backing the healthy track. -/
def demoHealthyDevices : EnumeratedDevices :=
  { videoDevices := []
    audioDevices := [{ deviceId := "mic-1", label := "Mic", kind := "audioinput" }]
    outputDevices := [] }

/-- C7 witness: one active session whose only outgoing track still has
its device, no output element — the pass is a no-op. -/
theorem validate_no_missing_devices_noop_witness :
    (∀ s ∈ [demoMicSession], s.active = true →
      ∀ t ∈ outgoingTracksToCheck s,
        deviceExistsForTrack (deviceListForTrack demoHealthyDevices t) t = true) ∧
    validateOutgoingMediaTracks [demoHandler] true demoHealthyDevices [demoMicSession]
      = Except.ok [] := by
  have h1 : ∀ s ∈ [demoMicSession], s.active = true →
      ∀ t ∈ outgoingTracksToCheck s,
        deviceExistsForTrack (deviceListForTrack demoHealthyDevices t) t = true := by
    decide
  have h2 : ∀ s ∈ [demoMicSession], s.active = true →
      ∀ sinkId, s.outputAudioElement = some sinkId → (true : Bool) = true →
        demoHealthyDevices.outputDevices.any (fun d => d.deviceId == sinkId) = true := by
    decide
  exact ⟨h1, validate_no_missing_devices_noop [demoHandler] true demoHealthyDevices
    [demoMicSession] h1 h2⟩

/-- On the no-audio-device path, a flagged session receives the audio
mute and the stop-and-removal of every audio-sending track. -/
theorem flagActions_no_audio_device (devices : EnumeratedDevices) (sessionId : String)
    (y : IJingleSession) (fl : MediaUpdateFlags)
    (haud : fl.audio = true) (hempty : devices.audioDevices.isEmpty = true) :
    SdkAction.setAudioMute y.id true ∈ flagActions devices sessionId y fl ∧
    ∀ sn ∈ getSendersByTrackType y "audio", ∀ t, sn.track = some t →
      SdkAction.stopTrack t.id ∈ flagActions devices sessionId y fl ∧
      SdkAction.removeMediaFromSession y.id t.id ∈ flagActions devices sessionId y fl ∧
      SdkAction.removeTrackFromOutboundStream y.id t.id
          ∈ flagActions devices sessionId y fl := by
  unfold flagActions
  rw [haud, hempty]
  constructor
  · simp
  · intro sn hsn t ht
    have hsn2 : sn ∈ (getSendersByTrackType y "audio").filter
        (fun sn => sn.track.isSome) :=
      List.mem_filter.mpr ⟨hsn, by rw [ht]; rfl⟩
    refine ⟨?_, ?_, ?_⟩ <;>
    · apply List.mem_append_left
      apply List.mem_append_right
      apply List.mem_cons_of_mem
      refine List.mem_flatMap.mpr ⟨sn, hsn2, ?_⟩
      rw [ht]
      simp

/-- C5: for a reconciliation pass in which some active session has an
outgoing audio track with no matching audio device and the audio
inventory is empty, the pass mutes audio for that session and stops and
removes every audio-sending track of that session, and issues no generic
audio device switch (the audio leg of every outgoing-media update stays
unset). -/
theorem validate_missing_audio_no_inventory_mutes_and_strips
    (handlers : List SessionHandler) (hasOutputSupport : Bool)
    (devices : EnumeratedDevices) (allSessions : List IJingleSession)
    (s : IJingleSession)
    (hwf : SessionsWellFormed handlers allSessions)
    (hmem : s ∈ allSessions) (hact : s.active = true)
    (hmissing : ∃ t ∈ outgoingTracksToCheck s, t.kind = "audio" ∧
      deviceExistsForTrack devices.audioDevices t = false)
    (hnoaudio : devices.audioDevices = []) :
    ∃ acts, validateOutgoingMediaTracks handlers hasOutputSupport devices allSessions
        = Except.ok acts ∧
      SdkAction.setAudioMute s.id true ∈ acts ∧
      (∀ sn ∈ getSendersByTrackType s "audio", ∀ t, sn.track = some t →
        SdkAction.stopTrack t.id ∈ acts ∧
        SdkAction.removeMediaFromSession s.id t.id ∈ acts ∧
        SdkAction.removeTrackFromOutboundStream s.id t.id ∈ acts) ∧
      (∀ sid v a, SdkAction.updateOutgoingMedia sid v a ∈ acts → a = false) := by
  obtain ⟨t, htmem, htkind, htexists⟩ := hmissing
  have htmiss : t ∈ missingTracks devices s := by
    unfold missingTracks
    refine List.mem_filter.mpr ⟨htmem, ?_⟩
    unfold deviceListForTrack
    rw [htkind]
    simp [htexists]
  have haud : (sessionUpdateFlags devices s).audio = true := by
    show (missingTracks devices s).any (fun t => t.kind == "audio") = true
    rw [List.any_eq_true]
    exact ⟨t, htmiss, by simp [htkind]⟩
  have hempty : devices.audioDevices.isEmpty = true := by
    rw [List.isEmpty_iff]
    exact hnoaudio
  have hne : missingTracks devices s ≠ [] := List.ne_nil_of_mem htmiss
  have hsact : s ∈ getAllActiveSessions allSessions := by
    unfold getAllActiveSessions
    exact List.mem_filter.mpr ⟨hmem, by simp [hact]⟩
  have hentry := mem_buildUpdates_of_missing devices (getAllActiveSessions allSessions)
    s hsact hne
  have hsea := sessionUpdateActions_eq handlers devices allSessions s
    (sessionUpdateFlags devices s) hwf hmem
  obtain ⟨acts, hval, hfwd, hbwd⟩ := validateOutgoingMediaTracks_characterization
    handlers hasOutputSupport devices allSessions hwf
  have hsub : ∀ x ∈ flagActions devices s.id s (sessionUpdateFlags devices s), x ∈ acts :=
    fun x hx => hfwd _ hentry _ hsea x hx
  obtain ⟨hmute, hstrip⟩ := flagActions_no_audio_device devices s.id s
    (sessionUpdateFlags devices s) haud hempty
  refine ⟨acts, hval, hsub _ hmute, ?_, ?_⟩
  · intro sn hsn t2 ht2
    obtain ⟨h1, h2, h3⟩ := hstrip sn hsn t2 ht2
    exact ⟨hsub _ h1, hsub _ h2, hsub _ h3⟩
  · intro sid v a hxin
    rcases hbwd _ hxin with ⟨e, he, ea, hea, hxea⟩ | ⟨sid2, did, hxeq⟩
    · obtain ⟨y, hy, heq, _⟩ := of_mem_buildUpdates devices
        (getAllActiveSessions allSessions) e he
      have hyall : y ∈ allSessions := (List.mem_filter.mp hy).1
      subst heq
      rw [sessionUpdateActions_eq handlers devices allSessions y
        (sessionUpdateFlags devices y) hwf hyall] at hea
      have hea2 := Except.ok.inj hea
      subst hea2
      rcases mem_flagActions_cases devices y.id y (sessionUpdateFlags devices y) _ hxea with
        ⟨_, hc⟩ | ⟨_, hc⟩ | hc
      · simp at hc
      · rcases hc with h | ⟨tid, h⟩ | ⟨tid, h⟩ | ⟨tid, h⟩ <;> simp at h
      · have h3 := (SdkAction.updateOutgoingMedia.injEq _ _ _ _ _ _).mp hc |>.2.2
        rw [h3, hnoaudio]
        simp
    · simp at hxeq

/-- An active session whose only outgoing track is an audio track backed
by a device that is gone. -/
def demoLostMicSession : IJingleSession :=
  { id := "session-4"
    sid := "sid-4"
    peerID := "user@example.com"
    conversationId := "c4"
    sessionType := .softphone
    active := true
    screenShareStream := none
    senders := [{ track := some { id := "track-old-mic", kind := "audio", label := "Old Mic" } }]
    outputAudioElement := none }

/-- An inventory with no devices at all. -/
def demoEmptyDevices : EnumeratedDevices :=
  { videoDevices := [], audioDevices := [], outputDevices := [] }

/-- C5 witness: the lost-microphone session is audio-muted and its audio
track is stopped and removed when the audio inventory is empty. -/
theorem validate_missing_audio_no_inventory_mutes_and_strips_witness :
    ∃ acts, validateOutgoingMediaTracks [demoHandler] false demoEmptyDevices
        [demoLostMicSession] = Except.ok acts ∧
      SdkAction.setAudioMute "session-4" true ∈ acts ∧
      SdkAction.stopTrack "track-old-mic" ∈ acts ∧
      SdkAction.removeMediaFromSession "session-4" "track-old-mic" ∈ acts := by
  obtain ⟨acts, hval, hmute, hstrip, _⟩ :=
    validate_missing_audio_no_inventory_mutes_and_strips [demoHandler] false
      demoEmptyDevices [demoLostMicSession] demoLostMicSession
      (by refine ⟨by decide, by decide, ?_⟩; intro s hs; simp at hs; subst hs
          exact ⟨by decide, rfl⟩)
      (by decide) (by decide)
      (by decide) (by decide)
  obtain ⟨h1, h2, _⟩ := hstrip
    { track := some { id := "track-old-mic", kind := "audio", label := "Old Mic" } }
    (by decide) { id := "track-old-mic", kind := "audio", label := "Old Mic" } rfl
  exact ⟨acts, hval, hmute, h1, h2⟩

/-- On the video path with devices remaining, a flagged session receives
the combined outgoing-media update with the video sentinel set. -/
theorem flagActions_video_switch (devices : EnumeratedDevices) (sessionId : String)
    (y : IJingleSession) (fl : MediaUpdateFlags)
    (hvidflag : fl.video = true) (hne : devices.videoDevices ≠ []) :
    SdkAction.updateOutgoingMedia sessionId true (fl.audio && !devices.audioDevices.isEmpty)
      ∈ flagActions devices sessionId y fl := by
  unfold flagActions
  have hie : devices.videoDevices.isEmpty = false := List.isEmpty_eq_false.mpr hne
  rw [hvidflag, hie]
  simp

/-- C6: for a reconciliation pass in which some active session has an
outgoing video track with no matching video device while at least one
video input device remains, the pass issues the generic (sentinel-true)
video switch for that session and emits no video mute for it. -/
theorem validate_missing_video_with_inventory_switches
    (handlers : List SessionHandler) (hasOutputSupport : Bool)
    (devices : EnumeratedDevices) (allSessions : List IJingleSession)
    (s : IJingleSession)
    (hwf : SessionsWellFormed handlers allSessions)
    (hmem : s ∈ allSessions) (hact : s.active = true)
    (hmissing : ∃ t ∈ outgoingTracksToCheck s, t.kind = "video" ∧
      deviceExistsForTrack devices.videoDevices t = false)
    (hvid : devices.videoDevices ≠ []) :
    ∃ acts, validateOutgoingMediaTracks handlers hasOutputSupport devices allSessions
        = Except.ok acts ∧
      (∃ a, SdkAction.updateOutgoingMedia s.id true a ∈ acts) ∧
      SdkAction.setVideoMute s.id true ∉ acts := by
  obtain ⟨t, htmem, htkind, htexists⟩ := hmissing
  have htmiss : t ∈ missingTracks devices s := by
    unfold missingTracks
    refine List.mem_filter.mpr ⟨htmem, ?_⟩
    unfold deviceListForTrack
    rw [htkind]
    simp [htexists]
  have hvidflag : (sessionUpdateFlags devices s).video = true := by
    show (missingTracks devices s).any (fun t => t.kind == "video") = true
    rw [List.any_eq_true]
    exact ⟨t, htmiss, by simp [htkind]⟩
  have hne2 : missingTracks devices s ≠ [] := List.ne_nil_of_mem htmiss
  have hsact : s ∈ getAllActiveSessions allSessions := by
    unfold getAllActiveSessions
    exact List.mem_filter.mpr ⟨hmem, by simp [hact]⟩
  have hentry := mem_buildUpdates_of_missing devices (getAllActiveSessions allSessions)
    s hsact hne2
  have hsea := sessionUpdateActions_eq handlers devices allSessions s
    (sessionUpdateFlags devices s) hwf hmem
  obtain ⟨acts, hval, hfwd, hbwd⟩ := validateOutgoingMediaTracks_characterization
    handlers hasOutputSupport devices allSessions hwf
  have hpos := flagActions_video_switch devices s.id s (sessionUpdateFlags devices s)
    hvidflag hvid
  refine ⟨acts, hval, ⟨_, hfwd _ hentry _ hsea _ hpos⟩, ?_⟩
  intro hmv
  rcases hbwd _ hmv with ⟨e, he, ea, hea, hxea⟩ | ⟨sid2, did, hxeq⟩
  · obtain ⟨y, hy, heq, _⟩ := of_mem_buildUpdates devices
      (getAllActiveSessions allSessions) e he
    have hyall : y ∈ allSessions := (List.mem_filter.mp hy).1
    subst heq
    rw [sessionUpdateActions_eq handlers devices allSessions y
      (sessionUpdateFlags devices y) hwf hyall] at hea
    have hea2 := Except.ok.inj hea
    subst hea2
    rcases mem_flagActions_cases devices y.id y (sessionUpdateFlags devices y) _ hxea with
      ⟨hcond, hc⟩ | ⟨_, hc⟩ | hc
    · have hie : devices.videoDevices.isEmpty = false := List.isEmpty_eq_false.mpr hvid
      rw [hie] at hcond
      simp at hcond
    · rcases hc with h | ⟨tid, h⟩ | ⟨tid, h⟩ | ⟨tid, h⟩ <;> simp at h
    · simp at hc
  · simp at hxeq

/-- An active video session whose only outgoing track is a video track
backed by a device that is gone. -/
def demoLostCamSession : IJingleSession :=
  { id := "session-5"
    sid := "sid-5"
    peerID := "room@conference.example.com"
    conversationId := "c5"
    sessionType := .collaborateVideo
    active := true
    screenShareStream := none
    senders := [{ track := some { id := "track-old-cam", kind := "video", label := "Old Cam" } }]
    outputAudioElement := none }

/-- An inventory still holding one (different) video input device. -/
def demoVideoDevices : EnumeratedDevices :=
  { videoDevices := [{ deviceId := "cam-2", label := "New Cam", kind := "videoinput" }]
    audioDevices := []
    outputDevices := [] }

/-- C6 witness: the lost-camera session gets a sentinel video switch and
no video mute while another camera remains in the inventory. -/
theorem validate_missing_video_with_inventory_switches_witness :
    ∃ acts, validateOutgoingMediaTracks [demoHandler] false demoVideoDevices
        [demoLostCamSession] = Except.ok acts ∧
      (∃ a, SdkAction.updateOutgoingMedia "session-5" true a ∈ acts) ∧
      SdkAction.setVideoMute "session-5" true ∉ acts := by
  obtain ⟨acts, hval, hsw, hnomute⟩ :=
    validate_missing_video_with_inventory_switches [demoHandler] false demoVideoDevices
      [demoLostCamSession] demoLostCamSession
      (by refine ⟨by decide, by decide, ?_⟩
          intro s hs; simp at hs; subst hs; exact ⟨by decide, rfl⟩)
      (by decide) (by decide) (by decide) (by decide)
  exact ⟨acts, hval, hsw, hnomute⟩

end GcSdk
